import Mathlib

/-!
Shallow embedding of the opencode-autopilot core (Python) in Lean 4,
with theorems checking the natural-language specification against the code.

Modules embedded (mirroring `src/opencode_autopilot/`):
  * `cli_runner.py` : tool descriptors, single-tool invocation and outcome
    classification, fallback over the installed-tool list;
  * `opencode.py`   : the `run_agent` wrapper (including Python keyword-argument
    binding, which is where this wrapper actually fails);
  * `rate_limit.py` : the on-disk rate-limit ledger (save/load/clear/paused);
  * `detector.py`   : project-state detection from a directory snapshot;
  * `runner.py`     : the session state machine (`run`, `run_gg_mode`,
    `calculate_wait_time`) instrumented with an event trace.

External effects are modelled as explicit inputs: the PATH lookup is a
predicate `which : String → Bool`, a subprocess launch is a `LaunchOutcome`
value supplied per tool, the agent's filesystem effects are oracles
`Nat → Bool` saying whether the expected artifact exists after the k-th
attempt, the wall clock is a `DateTime` value or a duration oracle, and the
filesystem is an explicit association list from paths to file contents.
-/

namespace CliRunner

/-- Outcome classification of one external-tool invocation (`ToolResult` in
`cli_runner.py`). -/
inductive ToolResult where
  | SUCCESS
  | FAILED
  | RATE_LIMITED
deriving DecidableEq, Repr

/-- Static descriptor of one supported external tool (`ToolConfig`). -/
structure ToolConfig where
  command : String
  run_args : List String
  default_model : String
  rate_limit_patterns : List String
deriving DecidableEq, Repr

/-- The tool table `TOOL_CONFIG` from `cli_runner.py`.  A Python dict keeps
insertion order, so a list of pairs models its iteration order. -/
def TOOL_CONFIG : List (String × ToolConfig) :=
  [ ("opencode",
      { command := "opencode"
        run_args := ["run", "--agent", "\x7bagent\x7d", "--model", "\x7bmodel\x7d", "\x7bprompt\x7d"]
        default_model := "opencode/big-pickle"
        rate_limit_patterns := ["insufficient balance", "quota exceeded", "rate limit"] }),
    ("kilocode",
      { command := "kilo"
        run_args := ["run", "\x7bprompt\x7d"]
        default_model := "minimax/minimax-m2"
        rate_limit_patterns := ["rate limit exceeded", "free tier rate limit", "429"] }) ]

/-- Lookup in the tool table (`TOOL_CONFIG.get(tool_name)`). -/
def lookupConfig (tool_name : String) : Option ToolConfig :=
  (TOOL_CONFIG.find? (fun p => p.1 == tool_name)).map Prod.snd

/-- PATH availability of a tool (`is_tool_installed`): resolves the tool name
to its launch command and asks the PATH oracle `which` (`shutil.which`). -/
def is_tool_installed (which : String → Bool) (tool_name : String) : Bool :=
  match lookupConfig tool_name with
  | none => false
  | some config => which config.command

/-- Installed tools in table (priority) order (`detect_available_tools`). -/
def detect_available_tools (which : String → Bool) : List String :=
  (TOOL_CONFIG.map Prod.fst).filter (fun t => is_tool_installed which t)

/-- Occurrence of one character list inside another (substring test). -/
def listContains (hay needle : List Char) : Bool :=
  (List.range (hay.length + 1)).any (fun i => needle.isPrefixOf (hay.drop i))

/-- Character-wise lowercasing of a string (Python `str.lower` restricted to
ASCII, which is all the patterns use). -/
def lowerChars (s : String) : List Char :=
  s.data.map Char.toLower

/-- Case-insensitive substring test.  Every entry of `rate_limit_patterns`
in the source is a regex without metacharacters, so Python's
`re.search(pattern, stderr, re.IGNORECASE)` is exactly a case-insensitive
substring match. -/
def matchesPattern (stderr pattern : String) : Bool :=
  listContains (lowerChars stderr) (lowerChars pattern)

/-- Rate-limit classification of captured stderr (`check_rate_limit`). -/
def check_rate_limit (stderr : String) (tool_name : String) : Bool :=
  match lookupConfig tool_name with
  | none => false
  | some config => config.rate_limit_patterns.any (fun p => matchesPattern stderr p)

/-- Result of attempting to launch the subprocess, an input to the model:
either the process ran to completion (exit code, captured stderr, which
`subprocess.run` may report as `None`), or the launch raised
`FileNotFoundError`, or it raised some other exception with a message. -/
inductive LaunchOutcome where
  | completed (returncode : Int) (stderr : Option String)
  | fileNotFound
  | exnOther (msg : String)
deriving DecidableEq, Repr

/-- Substitute the placeholder arguments of a tool's argument template
(the `arg.replace` chain in `run_tool`). -/
def format_arg (arg agent model prompt : String) : String :=
  ((arg.replace "\x7bagent\x7d" agent).replace "\x7bmodel\x7d" model).replace
    "\x7bprompt\x7d" prompt

/-- Embedding of `run_tool` from `cli_runner.py`.  The subprocess launch is
the explicit input `launch`; everything else follows the source: unknown tool
is FAILED, exit code 0 is SUCCESS, a rate-limit signature in stderr is
RATE_LIMITED, any other nonzero exit is FAILED, `FileNotFoundError` is FAILED
with a "not found in PATH" diagnostic, and any other exception is FAILED with
its message.  Returns `(result, stderr)` as in the source. -/
def run_tool (tool_name prompt : String) (model : Option String) (agent : String)
    (launch : LaunchOutcome) : ToolResult × String :=
  match lookupConfig tool_name with
  | none => (ToolResult.FAILED, "Unknown tool: " ++ tool_name)
  | some config =>
    let effective_model := model.getD config.default_model
    let _args := config.run_args.map (fun a => format_arg a agent effective_model prompt)
    match launch with
    | LaunchOutcome.completed returncode stderrOpt =>
      let stderr := stderrOpt.getD ""
      if returncode == 0 then (ToolResult.SUCCESS, stderr)
      else if check_rate_limit stderr tool_name then (ToolResult.RATE_LIMITED, stderr)
      else (ToolResult.FAILED, stderr)
    | LaunchOutcome.fileNotFound => (ToolResult.FAILED, config.command ++ " not found in PATH")
    | LaunchOutcome.exnOther msg => (ToolResult.FAILED, msg)

/-- Observable side effects of the tool invoker, recorded as a trace.  The
vocabulary covers the operations the rate-limit ledger module
(`rate_limit.py`) offers to the invoker: invoking a tool, reading the
persisted ledger (`load_rate_limit_status`), and writing a per-tool limited
flag (`mark_tool_limited`). -/
inductive Effect where
  | invokeTool (tool : String)
  | readLedger
  | writeLedger (tool : String)
deriving DecidableEq, Repr

/-- Whether an effect is a tool invocation. -/
def Effect.isInvoke : Effect → Bool
  | Effect.invokeTool _ => true
  | _ => false

/-- Return value of `run_with_fallback`, its tuple `(result, tool_used,
stderr)` plus the recorded effect trace. -/
structure FallbackOutcome where
  result : ToolResult
  tool_used : String
  stderr : String
  trace : List Effect
deriving DecidableEq, Repr

/-- The candidate loop of `run_with_fallback`: try each available tool in
order; exit code 0 short-circuits with SUCCESS; both RATE_LIMITED and FAILED
continue to the next candidate; when the list is exhausted the source returns
`(ToolResult.RATE_LIMITED, "", "All tools hit rate limits")` unconditionally. -/
def fallback_loop (prompt : String) (model : Option String) (agent : String)
    (launch : String → LaunchOutcome) : List String → FallbackOutcome
  | [] => { result := ToolResult.RATE_LIMITED, tool_used := "", stderr := "All tools hit rate limits", trace := [] }
  | tool_name :: rest =>
    let rs := run_tool tool_name prompt model agent (launch tool_name)
    if rs.1 = ToolResult.SUCCESS then
      { result := ToolResult.SUCCESS, tool_used := tool_name, stderr := rs.2,
        trace := [Effect.invokeTool tool_name] }
    else
      let r := fallback_loop prompt model agent launch rest
      { r with trace := Effect.invokeTool tool_name :: r.trace }

/-- Embedding of `run_with_fallback` from `cli_runner.py`: filter the
installed tools by the caller-supplied exclusion list, return FAILED when no
tool is available, otherwise run the candidate loop. -/
def run_with_fallback (prompt : String) (_project_dir : String) (model : Option String)
    (agent : String) (excluded_tools : List String) (which : String → Bool)
    (launch : String → LaunchOutcome) : FallbackOutcome :=
  let available := (detect_available_tools which).filter (fun t => !excluded_tools.contains t)
  if available.isEmpty then
    { result := ToolResult.FAILED, tool_used := "", stderr := "No CLI tools available", trace := [] }
  else
    fallback_loop prompt model agent launch available

end CliRunner

namespace Opencode

open CliRunner

/-- Parameter names of `run_with_fallback` as declared in `cli_runner.py`. -/
def run_with_fallback_param_names : List String :=
  ["prompt", "project_dir", "model", "agent", "excluded_tools", "log_callback"]

/-- Keyword-argument names that `run_agent` in `opencode.py` passes in its
call to `run_with_fallback`. -/
def run_agent_passed_keywords : List String :=
  ["prompt", "project_dir", "model", "agent", "preferred_tool", "log_callback"]

/-- Embedding of `run_agent` from `opencode.py`, including Python call
semantics: a keyword argument whose name is not among the callee's parameters
raises `TypeError` before the callee body runs.  When the binding succeeds the
source returns `result == ToolResult.SUCCESS` from the fallback call. -/
def run_agent (prompt project_dir : String) (model agent : String)
    (_preferred_tool : Option String) (which : String → Bool)
    (launch : String → LaunchOutcome) : Except String Bool :=
  if run_agent_passed_keywords.all (fun k => run_with_fallback_param_names.contains k) then
    Except.ok ((run_with_fallback prompt project_dir (some model) agent [] which launch).result
      = ToolResult.SUCCESS : Bool)
  else
    Except.error
      "TypeError: run_with_fallback() got an unexpected keyword argument preferred_tool"

end Opencode

namespace CliRunner

/-- Exhausting the candidate loop without a success always produces the fixed
RATE_LIMITED outcome, whatever the individual failures were. -/
theorem fallback_loop_cases (prompt : String) (model : Option String) (agent : String)
    (launch : String → LaunchOutcome) (tools : List String) :
    (fallback_loop prompt model agent launch tools).result = ToolResult.SUCCESS ∨
      ((fallback_loop prompt model agent launch tools).result = ToolResult.RATE_LIMITED ∧
        (fallback_loop prompt model agent launch tools).stderr = "All tools hit rate limits") := by
  induction tools with
  | nil => exact Or.inr ⟨rfl, rfl⟩
  | cons t rest ih =>
    by_cases h : (run_tool t prompt model agent (launch t)).1 = ToolResult.SUCCESS
    · simp [fallback_loop, h]
    · simpa [fallback_loop, h] using ih

/-- The candidate loop only ever records tool invocations in its trace. -/
theorem fallback_loop_trace_invokes (prompt : String) (model : Option String) (agent : String)
    (launch : String → LaunchOutcome) (tools : List String) :
    (fallback_loop prompt model agent launch tools).trace.all Effect.isInvoke = true := by
  induction tools with
  | nil => rfl
  | cons t rest ih =>
    by_cases h : (run_tool t prompt model agent (launch t)).1 = ToolResult.SUCCESS
    · simp [fallback_loop, h, Effect.isInvoke]
    · simpa [fallback_loop, h, Effect.isInvoke] using ih

end CliRunner

/-- Claim C3, counterexample.  With only `opencode` installed and its one
invocation failing with a diagnostic (`"boom"`) that matches no rate-limit
pattern, the claim requires `run_with_fallback` to return FAILED carrying
that last diagnostic; the code instead returns RATE_LIMITED with the fixed
message `"All tools hit rate limits"`. -/
theorem claim_C3_counterexample :
    (CliRunner.run_with_fallback "p" "proj" none "autonomous" []
        (fun c => c == "opencode")
        (fun _ => CliRunner.LaunchOutcome.completed 1 (some "boom"))).result
      = CliRunner.ToolResult.RATE_LIMITED ∧
    (CliRunner.run_with_fallback "p" "proj" none "autonomous" []
        (fun c => c == "opencode")
        (fun _ => CliRunner.LaunchOutcome.completed 1 (some "boom"))).stderr
      = "All tools hit rate limits" := by
  constructor <;> rfl

/-- Claim C3, amended.  When `run_with_fallback` exhausts every candidate
tool without a success it returns RATE_LIMITED with the fixed diagnostic
`"All tools hit rate limits"` regardless of why the candidates failed; FAILED
is returned only in the no-tools-available case, with that diagnostic. -/
theorem claim_C3 (prompt project_dir : String) (model : Option String) (agent : String)
    (excluded_tools : List String) (which : String → Bool)
    (launch : String → CliRunner.LaunchOutcome) :
    (CliRunner.run_with_fallback prompt project_dir model agent excluded_tools which launch).result
        = CliRunner.ToolResult.SUCCESS ∨
      ((CliRunner.run_with_fallback prompt project_dir model agent excluded_tools which launch).result
          = CliRunner.ToolResult.FAILED ∧
        (CliRunner.run_with_fallback prompt project_dir model agent excluded_tools which launch).stderr
          = "No CLI tools available") ∨
      ((CliRunner.run_with_fallback prompt project_dir model agent excluded_tools which launch).result
          = CliRunner.ToolResult.RATE_LIMITED ∧
        (CliRunner.run_with_fallback prompt project_dir model agent excluded_tools which launch).stderr
          = "All tools hit rate limits") := by
  unfold CliRunner.run_with_fallback
  dsimp only
  split
  · exact Or.inr (Or.inl ⟨rfl, rfl⟩)
  · rcases CliRunner.fallback_loop_cases prompt model agent launch
        ((CliRunner.detect_available_tools which).filter
          (fun t => !excluded_tools.contains t)) with hs | ⟨hr, he⟩
    · exact Or.inl hs
    · exact Or.inr (Or.inr ⟨hr, he⟩)

/-- Claim C4.  `run_agent` in `opencode.py` passes the keyword argument
`preferred_tool` to `run_with_fallback`, whose parameter list has no such
name, so under Python call semantics every invocation of `run_agent` raises
`TypeError` instead of returning a boolean result — contradicting the claim
that the tool-invoker entry points never raise.  (The inner functions
`run_tool` and `run_with_fallback` themselves do satisfy the never-raise
property; the theorem evaluates the embedded `run_agent` and shows the
exception.) -/
theorem claim_C4 (prompt project_dir model agent : String) (preferred_tool : Option String)
    (which : String → Bool) (launch : String → CliRunner.LaunchOutcome) :
    Opencode.run_agent prompt project_dir model agent preferred_tool which launch
      = Except.error
          "TypeError: run_with_fallback() got an unexpected keyword argument preferred_tool" := by
  rfl

/-- Claim C5, counterexample.  With only `opencode` installed and its
invocation classified RATE_LIMITED (stderr matches the `"rate limit"`
pattern), the effect trace of `run_with_fallback` is exactly one tool
invocation: the persisted ledger is not read before the attempt and no
per-tool limited flag is written after the RATE_LIMITED outcome, contrary to
the claim. -/
theorem claim_C5_counterexample :
    (CliRunner.run_with_fallback "p" "proj" none "autonomous" []
        (fun c => c == "opencode")
        (fun _ => CliRunner.LaunchOutcome.completed 1 (some "rate limit reached"))).result
      = CliRunner.ToolResult.RATE_LIMITED ∧
    (CliRunner.run_with_fallback "p" "proj" none "autonomous" []
        (fun c => c == "opencode")
        (fun _ => CliRunner.LaunchOutcome.completed 1 (some "rate limit reached"))).trace
      = [CliRunner.Effect.invokeTool "opencode"] := by
  constructor <;> rfl

/-- Claim C5, amended.  `run_with_fallback` performs only tool invocations:
its effect trace never contains a ledger read or a ledger write, for any
inputs.  Tools are skipped only through the caller-supplied `excluded_tools`
list; the persisted rate-limit ledger of `rate_limit.py` is neither consulted
nor updated by the tool invoker (`mark_tool_limited` has no caller in the
invoker). -/
theorem claim_C5 (prompt project_dir : String) (model : Option String) (agent : String)
    (excluded_tools : List String) (which : String → Bool)
    (launch : String → CliRunner.LaunchOutcome) :
    (CliRunner.run_with_fallback prompt project_dir model agent excluded_tools which launch).trace.all
      CliRunner.Effect.isInvoke = true := by
  unfold CliRunner.run_with_fallback
  dsimp only
  split
  · rfl
  · exact CliRunner.fallback_loop_trace_invokes prompt model agent launch
      ((CliRunner.detect_available_tools which).filter (fun t => !excluded_tools.contains t))

namespace Runner

/-- Run options (`RunOptions` dataclass in `runner.py`), defaults as in the
source. -/
structure RunOptions where
  sessions : Nat := 10
  interval : Nat := 30
  resume : Nat := 1
  model : String := "opencode/big-pickle"
  agent : String := "autonomous"
deriving DecidableEq, Repr

/-- Python `int()` applied to a real-valued quantity: truncation toward
zero.  Durations are modelled as rationals. -/
def pyInt (q : ℚ) : ℤ :=
  if 0 ≤ q then ⌊q⌋ else ⌈q⌉

/-- Embedding of `calculate_wait_time` from `runner.py`: if the run took
less than the configured interval, wait `int(interval_seconds - run_time)`
seconds; otherwise wait the full interval. -/
def calculate_wait_time (run_duration_seconds : ℚ) (interval_minutes : Nat) : ℤ :=
  let interval_seconds : ℤ := (interval_minutes : ℤ) * 60
  if run_duration_seconds < (interval_seconds : ℚ) then
    pyInt ((interval_seconds : ℚ) - run_duration_seconds)
  else
    interval_seconds

/-- Kinds of sessions the runner schedules (which prompt template is used). -/
inductive SessionKind where
  | research
  | blueprint
  | build
  | security
deriving DecidableEq, Repr

/-- Observable events of one run: a `run_agent` invocation for a session
index, the 60-second retry cooldown (`sleep_seconds(60)`), and the
inter-session sleep (`sleep_seconds(wait_seconds)`). -/
inductive Event where
  | invoke (run_num : Nat) (kind : SessionKind)
  | cooldown (seconds : Nat)
  | wait (seconds : ℤ)
deriving DecidableEq, Repr

/-- Whether an event is a tool invocation. -/
def Event.isInvoke : Event → Bool
  | Event.invoke _ _ => true
  | _ => false

/-- Number of `run_agent` invocations recorded in an event list. -/
def invocationCount (events : List Event) : Nat :=
  (events.filter Event.isInvoke).length

/-- Session indices of the invocations in an event list, in order. -/
def sessionIndices (events : List Event) : List Nat :=
  events.filterMap (fun e =>
    match e with
    | Event.invoke n _ => some n
    | _ => none)

/-- The artifact retry loop shared by the blueprint sessions of `run` and
`run_gg_mode` (`while not done and retry_count < max_retries`): invoke the
agent; if the artifact now exists stop with success, otherwise sleep 60
seconds and retry.  `creates k` says whether the k-th invocation brings the
artifact into existence; the artifact's current existence is threaded as
`present`.  The fuel argument is `max_retries - retry_count` with
`max_retries = 3` in the source.  Returns
`(artifact_confirmed, artifact_exists_after, events)`. -/
def artifact_retry (creates : Nat → Bool) (run_num : Nat) (kind : SessionKind) :
    Nat → Nat → Bool → Bool × Bool × List Event
  | 0, _, present => (false, present, [])
  | fuel + 1, k, present =>
    let present2 := present || creates k
    if present2 then (true, present2, [Event.invoke run_num kind])
    else
      let r := artifact_retry creates run_num kind fuel (k + 1) present2
      (r.1, r.2.1, Event.invoke run_num kind :: Event.cooldown 60 :: r.2.2)

/-- The `while run_num <= total_runs` loop of `run` in `runner.py`.  State:
current `run_num` and whether `BLUEPRINT.md` currently exists (`bp`).  Fuel
bounds the iteration count (the loop advances `run_num` every iteration, so
`total_runs + 1` fuel suffices).  Mirrors the source: session 1 without a
pre-existing blueprint runs the blueprint retry loop and aborts the whole run
when it fails (the skip-to-run-2 branch covers a blueprint appearing
in-loop); the final session is the security session; every other session is a
build session whose invocation outcome is ignored; between sessions the
runner sleeps `calculate_wait_time` seconds, with `dur` the wall-clock
duration oracle for each session. -/
def run_loop (interval : Nat) (total_runs : Nat) (has_blueprint : Bool)
    (creates : Nat → Bool) (dur : Nat → ℚ) :
    Nat → Nat → Bool → Bool × List Event
  | 0, _, _ => (true, [])
  | fuel + 1, run_num, bp =>
    if total_runs < run_num then (true, [])
    else if run_num == 1 && !has_blueprint && bp then
      run_loop interval total_runs has_blueprint creates dur fuel 2 bp
    else
      let step :=
        if run_num == 1 && !has_blueprint then
          let r := artifact_retry creates run_num SessionKind.blueprint 3 0 bp
          (r.2.2, !r.1, r.2.1)
        else if run_num == total_runs then
          ([Event.invoke run_num SessionKind.security], false, bp)
        else
          ([Event.invoke run_num SessionKind.build], false, bp)
      if step.2.1 then (false, step.1)
      else
        let waits :=
          if run_num < total_runs then
            [Event.wait (calculate_wait_time (dur run_num) interval)]
          else []
        let rest := run_loop interval total_runs has_blueprint creates dur fuel (run_num + 1) step.2.2
        (rest.1, step.1 ++ waits ++ rest.2)

/-- Embedding of `run` from `runner.py` (existing-project mode).
`has_blueprint` is whether `BLUEPRINT.md` exists when the run starts.  The
source computes `total_runs = options.sessions + 1` in both branches of its
blueprint check (the if/else bodies are identical), and starts the loop at
`run_num = 1`; `options.resume` is never read.  Returns the success flag and
the event trace. -/
def run (has_blueprint : Bool) (options : RunOptions) (creates : Nat → Bool)
    (dur : Nat → ℚ) : Bool × List Event :=
  let total_runs := if has_blueprint then options.sessions + 1 else options.sessions + 1
  run_loop options.interval total_runs has_blueprint creates dur (total_runs + 1) 1 has_blueprint

/-- Origin of the top-level `README.md` file, tracked to state what the
research-session existence check can observe. -/
inductive FileOrigin where
  | preexisting
  | createdDuringRun
deriving DecidableEq, Repr

/-- The `if readme_path.exists(): readme_path.unlink()` step at the start of
`run_gg_mode`. -/
def unlink_readme (readme : Option FileOrigin) : Option FileOrigin :=
  if readme.isSome then none else readme

/-- The research retry loop of `run_gg_mode` (session 0): invoke the agent;
check whether `README.md` exists; on failure sleep 60 seconds and retry, up
to 3 attempts.  `creates k` says whether the k-th invocation writes
`README.md`.  Also records the value each existence check observes.  Returns
`(readme_confirmed, final_state, events, observed_states)`. -/
def research_retry (creates : Nat → Bool) :
    Nat → Nat → Option FileOrigin →
      Bool × Option FileOrigin × List Event × List (Option FileOrigin)
  | 0, _, st => (false, st, [], [])
  | fuel + 1, k, st =>
    let st2 := if creates k then some FileOrigin.createdDuringRun else st
    if st2.isSome then (true, st2, [Event.invoke 0 SessionKind.research], [st2])
    else
      let r := research_retry creates fuel (k + 1) st2
      (r.1, r.2.1, Event.invoke 0 SessionKind.research :: Event.cooldown 60 :: r.2.2.1,
        st2 :: r.2.2.2)

/-- The `for run in range(1, total_runs + 1)` loop of `run_gg_mode`: run 1 is
the blueprint session with the same artifact retry loop (fatal on
exhaustion), the last run is the security session, every other run is a build
session; between sessions the adaptive wait applies. -/
def gg_loop (interval : Nat) (total_runs : Nat) (bpCreates : Nat → Bool) (dur : Nat → ℚ) :
    Nat → Nat → Bool → Bool × List Event
  | 0, _, _ => (true, [])
  | fuel + 1, run_num, bp =>
    if total_runs < run_num then (true, [])
    else
      let step :=
        if run_num == 1 then
          let r := artifact_retry bpCreates run_num SessionKind.blueprint 3 0 bp
          (r.2.2, !r.1, r.2.1)
        else if run_num == total_runs then
          ([Event.invoke run_num SessionKind.security], false, bp)
        else
          ([Event.invoke run_num SessionKind.build], false, bp)
      if step.2.1 then (false, step.1)
      else
        let waits :=
          if run_num < total_runs then
            [Event.wait (calculate_wait_time (dur run_num) interval)]
          else []
        let rest := gg_loop interval total_runs bpCreates dur fuel (run_num + 1) step.2.2
        (rest.1, step.1 ++ waits ++ rest.2)

/-- Result of a `run_gg_mode` run: success flag, event trace, and the README
states observed by the research-session existence checks. -/
structure GgResult where
  success : Bool
  events : List Event
  readme_checks : List (Option FileOrigin)
deriving DecidableEq, Repr

/-- Embedding of `run_gg_mode` from `runner.py` (full-autonomy mode).
`readme0` / `blueprint0` describe the project's `README.md` and
`BLUEPRINT.md` before the run.  The source sets
`total_runs = options.sessions + 2`, deletes a pre-existing `README.md`,
runs the research retry loop (fatal on exhaustion), sleeps the configured
interval, then runs the session loop. -/
def run_gg_mode (options : RunOptions) (readme0 : Option FileOrigin) (blueprint0 : Bool)
    (readmeCreates bpCreates : Nat → Bool) (dur : Nat → ℚ) : GgResult :=
  let total_runs := options.sessions + 2
  let readme1 := unlink_readme readme0
  let r := research_retry readmeCreates 3 0 readme1
  if !r.1 then
    { success := false, events := r.2.2.1, readme_checks := r.2.2.2 }
  else
    let pre := r.2.2.1 ++ [Event.wait ((options.interval * 60 : Nat) : ℤ)]
    let l := gg_loop options.interval total_runs bpCreates dur (total_runs + 1) 1 blueprint0
    { success := l.1, events := pre ++ l.2, readme_checks := r.2.2.2 }

end Runner

/-- Claim C1, counterexample.  For existing-project mode with
`sessions = 10` and no blueprint present, the claim requires 12 total
sessions (`1 blueprint + 10 build + 1 security`); the code computes
`total_runs = options.sessions + 1` in both branches of its blueprint check,
so a fully successful run performs 11 invocations, not 12. -/
theorem claim_C1_counterexample :
    Runner.invocationCount
        (Runner.run false
          { sessions := 10, interval := 30, resume := 1,
            model := "opencode/big-pickle", agent := "autonomous" }
          (fun _ => true) (fun _ => 0)).2 ≠ 12 := by
  decide

/-- Claim C1, amended.  The total session count of a fully successful run
is: existing-project mode with no blueprint present, `sessions + 1` (the
blueprint session doubles as the first build session), so 11 for
`sessions = 10`; with blueprint present, `sessions + 1 = 11`; full-autonomy
mode, `1 research + 1 blueprint + sessions build + 1 security = 13`. -/
theorem claim_C1 :
    Runner.invocationCount
        (Runner.run false
          { sessions := 10, interval := 30, resume := 1,
            model := "opencode/big-pickle", agent := "autonomous" }
          (fun _ => true) (fun _ => 0)).2 = 11 ∧
    Runner.invocationCount
        (Runner.run true
          { sessions := 10, interval := 30, resume := 1,
            model := "opencode/big-pickle", agent := "autonomous" }
          (fun _ => true) (fun _ => 0)).2 = 11 ∧
    Runner.invocationCount
        (Runner.run_gg_mode
          { sessions := 10, interval := 30, resume := 1,
            model := "opencode/big-pickle", agent := "autonomous" }
          none false (fun _ => true) (fun _ => true) (fun _ => 0)).events = 13 := by
  refine ⟨by decide, by decide, by decide⟩

/-- Claim C2.  With `resume = 5` the claim requires the runner to perform no
invocations for sessions 1–4 and begin at session 5; the embedded `run`
(like the source, which never reads `options.resume`) invokes sessions
1 through 11 in order, starting at session 1. -/
theorem claim_C2_counterexample :
    Runner.sessionIndices
        (Runner.run false
          { sessions := 10, interval := 30, resume := 5,
            model := "opencode/big-pickle", agent := "autonomous" }
          (fun _ => true) (fun _ => 0)).2
      = [1, 2, 3, 4, 5, 6, 7, 8, 9, 10, 11] := by
  decide

/-- Claim C6.  When the expected artifact never appears (`creates` is
constantly false), the runner performs exactly 3 invocations of the same
session with a 60-second cooldown after each failed attempt, then aborts the
entire run with failure: this holds for the blueprint session of
existing-project mode and for the research session of full-autonomy mode. -/
theorem claim_C6 (sessions interval resume : Nat) (model agent : String)
    (bpCreates : Nat → Bool) (dur : Nat → ℚ) :
    Runner.run false
        { sessions := sessions, interval := interval, resume := resume,
          model := model, agent := agent }
        (fun _ => false) dur
      = (false,
          [Runner.Event.invoke 1 Runner.SessionKind.blueprint, Runner.Event.cooldown 60,
           Runner.Event.invoke 1 Runner.SessionKind.blueprint, Runner.Event.cooldown 60,
           Runner.Event.invoke 1 Runner.SessionKind.blueprint, Runner.Event.cooldown 60]) ∧
    Runner.run_gg_mode
        { sessions := sessions, interval := interval, resume := resume,
          model := model, agent := agent }
        none false (fun _ => false) bpCreates dur
      = { success := false,
          events :=
            [Runner.Event.invoke 0 Runner.SessionKind.research, Runner.Event.cooldown 60,
             Runner.Event.invoke 0 Runner.SessionKind.research, Runner.Event.cooldown 60,
             Runner.Event.invoke 0 Runner.SessionKind.research, Runner.Event.cooldown 60],
          readme_checks := [none, none, none] } := by
  constructor <;> rfl

/-- Claim C9.  For every nonnegative run duration `d` (seconds, modelled as
a rational) and interval `i` (minutes), `calculate_wait_time` returns
`int(i*60 - d)` when `d < i*60` — which, the difference being nonnegative,
is the floor `⌊i*60 - d⌋` — and returns `i*60` otherwise, keeping a roughly
constant cadence between session starts. -/
theorem claim_C9 (d : ℚ) (i : Nat) (hd : 0 ≤ d) :
    (d < (i : ℚ) * 60 →
      Runner.calculate_wait_time d i = Runner.pyInt ((i : ℚ) * 60 - d) ∧
      Runner.calculate_wait_time d i = ⌊(i : ℚ) * 60 - d⌋) ∧
    (¬ d < (i : ℚ) * 60 → Runner.calculate_wait_time d i = (i : ℤ) * 60) := by
  have hcast : (((i : ℤ) * 60 : ℤ) : ℚ) = (i : ℚ) * 60 := by push_cast; ring
  constructor
  · intro h
    have h0 : 0 ≤ (i : ℚ) * 60 - d := by linarith
    have h1 : Runner.calculate_wait_time d i = Runner.pyInt ((i : ℚ) * 60 - d) := by
      unfold Runner.calculate_wait_time
      dsimp only
      rw [hcast, if_pos h]
    refine ⟨h1, ?_⟩
    rw [h1]
    unfold Runner.pyInt
    rw [if_pos h0]
  · intro h
    unfold Runner.calculate_wait_time
    dsimp only
    rw [hcast, if_neg h]

/-- Claim C9, witness at `d = 5`, `i = 1`. -/
theorem claim_C9_witness :
    (0 : ℚ) ≤ 5 ∧
    (((5 : ℚ) < (1 : Nat) * 60 →
        Runner.calculate_wait_time 5 1 = Runner.pyInt ((1 : Nat) * 60 - 5) ∧
        Runner.calculate_wait_time 5 1 = ⌊((1 : Nat) : ℚ) * 60 - 5⌋) ∧
      (¬ (5 : ℚ) < (1 : Nat) * 60 →
        Runner.calculate_wait_time 5 1 = ((1 : Nat) : ℤ) * 60)) :=
  ⟨by norm_num, claim_C9 5 1 (by norm_num)⟩

namespace Runner

/-- States observed by the research-session README existence check never
include a pre-existing README, as long as the state entering the retry loop
is not the pre-existing file. -/
theorem research_retry_checks (creates : Nat → Bool) (fuel k : Nat)
    (st : Option FileOrigin) (h : st ≠ some FileOrigin.preexisting) :
    (research_retry creates fuel k st).2.2.2.all
      (fun o => o != some FileOrigin.preexisting) = true := by
  induction fuel generalizing k st with
  | zero => rfl
  | succ fuel ih =>
    unfold research_retry
    dsimp only
    cases hc : creates k with
    | true => simp
    | false =>
      cases st with
      | none =>
        simp [ih (k + 1) none (by simp)]
      | some x =>
        have hx : x ≠ FileOrigin.preexisting := by
          intro hxx
          exact h (by rw [hxx])
        simp [hx]

end Runner

/-- Claim C10.  In full-autonomy mode the runner unconditionally deletes a
pre-existing top-level `README.md` before the first research invocation, so
whatever the initial README state and agent behavior, every README state the
research-session existence check observes is either absent or a file created
during the run — never the pre-existing file. -/
theorem claim_C10 (options : Runner.RunOptions) (readme0 : Option Runner.FileOrigin)
    (blueprint0 : Bool) (readmeCreates bpCreates : Nat → Bool) (dur : Nat → ℚ) :
    Runner.unlink_readme readme0 = none ∧
    (Runner.run_gg_mode options readme0 blueprint0 readmeCreates bpCreates dur).readme_checks.all
      (fun o => o != some Runner.FileOrigin.preexisting) = true := by
  have hu : Runner.unlink_readme readme0 = none := by
    cases readme0 <;> rfl
  refine ⟨hu, ?_⟩
  unfold Runner.run_gg_mode
  dsimp only
  rw [hu]
  have hchecks := Runner.research_retry_checks readmeCreates 3 0 none (by simp)
  split
  · simpa using hchecks
  · simpa using hchecks

namespace Detector

/-- Project classification (`ProjectState` enum in `detector.py`). -/
inductive ProjectState where
  | EMPTY
  | HAS_CODE_NO_BLUEPRINT
  | BLUEPRINT_ONLY
  | ACTIVE
  | COMPLETED
deriving DecidableEq, Repr

/-- Extensions that indicate source code (`CODE_EXTENSIONS`). -/
def CODE_EXTENSIONS : List String :=
  [".py", ".js", ".ts", ".jsx", ".tsx", ".go", ".rs", ".java",
   ".c", ".cpp", ".h", ".hpp", ".cs", ".rb", ".php", ".swift",
   ".kt", ".scala", ".vue", ".svelte", ".html", ".css", ".scss",
   ".sass", ".less", ".json", ".yaml", ".yml", ".toml", ".xml",
   ".sql", ".sh", ".bash", ".zsh", ".ps1", ".psm1"]

/-- Names skipped when scanning (`IGNORED_PATHS`). -/
def IGNORED_PATHS : List String :=
  [".git", ".gitignore", ".autopilot.json", ".opencode", ".opencode-autopilot",
   "node_modules", "__pycache__", ".venv", "venv", "dist", "build", ".next", ".nuxt"]

/-- One immediate child of the project directory as seen by `iterdir`:
its name and whether it is a regular file (otherwise a directory). -/
structure Entry where
  name : String
  isFile : Bool
deriving DecidableEq, Repr

/-- Snapshot of the filesystem facts `scan_directory` probes: the project
directory's immediate children, whether the nested
`.opencode-autopilot/HEARTBEAT` directory exists (not visible in the
top-level listing), and whether `DEPLOY_GUIDE.md` exists inside the old
(`HEARTBEAT/`) and new heartbeat locations. -/
structure ProjectFS where
  entries : List Entry
  new_heartbeat_isdir : Bool
  old_deploy_guide_exists : Bool
  new_deploy_guide_exists : Bool
deriving DecidableEq, Repr

/-- Python `str.startswith`. -/
def pyStartsWith (s pre : String) : Bool :=
  pre.data.isPrefixOf s.data

/-- Character-wise lowercasing (`str.lower` on ASCII extension text). -/
def lowerStr (s : String) : String :=
  String.mk (s.data.map Char.toLower)

/-- Python `pathlib.PurePath.suffix`: the substring from the last dot of the
name onward, provided that dot is neither the first nor the last character;
otherwise the empty string. -/
def pySuffix (name : String) : String :=
  let cs := name.data
  let n := cs.length
  let dots := (List.range n).filter (fun i => cs.getD i ' ' == '.')
  match dots.getLast? with
  | some i => if 0 < i && i < n - 1 then String.mk (cs.drop i) else ""
  | none => ""

/-- Embedding of `is_source_file`: directories are never source files; a
file is source code when its lowercased extension is in `CODE_EXTENSIONS`. -/
def is_source_file (e : Entry) : Bool :=
  if !e.isFile then false
  else CODE_EXTENSIONS.contains (lowerStr (pySuffix e.name))

/-- The per-entry filter of the `scan_directory` loop: skip hidden names
(except `.gitignore` and `.autopilot.json`), skip `IGNORED_PATHS`, keep
regular files only. -/
def keptInScan (e : Entry) : Bool :=
  if pyStartsWith e.name "." && !(e.name == ".gitignore" || e.name == ".autopilot.json") then
    false
  else if IGNORED_PATHS.contains e.name then
    false
  else
    e.isFile

/-- The dictionary `scan_directory` returns. -/
structure ScanInfo where
  has_blueprint : Bool
  has_heartbeat : Bool
  has_deploy_guide : Bool
  has_source_code : Bool
  has_text_only : Bool
  file_count : Nat
deriving DecidableEq, Repr

/-- Embedding of `scan_directory` from `detector.py`.  `BLUEPRINT.md`
existence and the old top-level `HEARTBEAT` directory are read off the
entry list (`Path.exists` is true for files and directories alike); the
deploy-guide probe prefers the new heartbeat location when it is a
directory, falling back to the old one. -/
def scan_directory (fs : ProjectFS) : ScanInfo :=
  let has_blueprint := fs.entries.any (fun e => e.name == "BLUEPRINT.md")
  let old_heartbeat_isdir := fs.entries.any (fun e => e.name == "HEARTBEAT" && !e.isFile)
  let has_heartbeat_dir := old_heartbeat_isdir || fs.new_heartbeat_isdir
  let has_deploy_guide :=
    if fs.new_heartbeat_isdir then fs.new_deploy_guide_exists else fs.old_deploy_guide_exists
  let files := fs.entries.filter keptInScan
  let has_source_code := files.any is_source_file
  let text_extensions : List String := [".md", ".txt"]
  let has_text_only :=
    if files.isEmpty then false
    else files.all (fun f => text_extensions.contains (lowerStr (pySuffix f.name)))
  { has_blueprint := has_blueprint
    has_heartbeat := has_heartbeat_dir
    has_deploy_guide := has_deploy_guide
    has_source_code := has_source_code
    has_text_only := has_text_only
    file_count := files.length }

/-- The result record of `detect_project_state`. -/
structure DetectionResult where
  state : ProjectState
  has_blueprint : Bool
  has_heartbeat : Bool
  has_deploy_guide : Bool
  has_source_code : Bool
  has_text_only : Bool
deriving DecidableEq, Repr

/-- Embedding of `detect_project_state` from `detector.py`. -/
def detect_project_state (fs : ProjectFS) : DetectionResult :=
  let info := scan_directory fs
  let state :=
    if info.has_blueprint && info.has_heartbeat then
      if info.has_deploy_guide then ProjectState.COMPLETED else ProjectState.ACTIVE
    else if info.has_blueprint && !info.has_heartbeat then
      ProjectState.BLUEPRINT_ONLY
    else if info.has_source_code then
      ProjectState.HAS_CODE_NO_BLUEPRINT
    else if info.file_count == 0 then
      ProjectState.EMPTY
    else
      ProjectState.HAS_CODE_NO_BLUEPRINT
  { state := state
    has_blueprint := info.has_blueprint
    has_heartbeat := info.has_heartbeat
    has_deploy_guide := info.has_deploy_guide
    has_source_code := info.has_source_code
    has_text_only := info.has_text_only }

/-- Claim C7's notion of a non-ignored entry, stated from the spec's words:
not hidden and not in the ignore set.  (The source additionally readmits
`.gitignore` and `.autopilot.json` past the hidden check, but both are in
`IGNORED_PATHS`, so the net filter coincides — proved in `kept_eq_spec`.) -/
def spec_non_ignored (e : Entry) : Bool :=
  !(pyStartsWith e.name ".") && !(IGNORED_PATHS.contains e.name)

/-- Claim C7's condition "any non-ignored source-code file exists". -/
def spec_source_file_exists (fs : ProjectFS) : Bool :=
  fs.entries.any (fun e =>
    spec_non_ignored e && (e.isFile && CODE_EXTENSIONS.contains (lowerStr (pySuffix e.name))))

/-- Claim C7's count of non-ignored files. -/
def spec_non_ignored_file_count (fs : ProjectFS) : Nat :=
  (fs.entries.filter (fun e => spec_non_ignored e && e.isFile)).length

/-- The first-match decision order stated by claim C7, as an independent
classifier over the same snapshot. -/
def spec_classify (fs : ProjectFS) : ProjectState :=
  let hb := fs.entries.any (fun e => e.name == "BLUEPRINT.md")
  let hh := fs.entries.any (fun e => e.name == "HEARTBEAT" && !e.isFile) || fs.new_heartbeat_isdir
  let dg :=
    if fs.new_heartbeat_isdir then fs.new_deploy_guide_exists else fs.old_deploy_guide_exists
  if hb && hh && dg then ProjectState.COMPLETED
  else if hb && hh then ProjectState.ACTIVE
  else if hb && !hh then ProjectState.BLUEPRINT_ONLY
  else if spec_source_file_exists fs then ProjectState.HAS_CODE_NO_BLUEPRINT
  else if spec_non_ignored_file_count fs == 0 then ProjectState.EMPTY
  else ProjectState.HAS_CODE_NO_BLUEPRINT

/-- The scan loop's filter equals the spec's non-ignored-file filter. -/
theorem kept_eq_spec (e : Entry) : keptInScan e = (spec_non_ignored e && e.isFile) := by
  unfold keptInScan spec_non_ignored
  cases hh : pyStartsWith e.name "."
  · cases hig : IGNORED_PATHS.contains e.name <;> simp [hh, hig]
  · cases hg : (e.name == ".gitignore" || e.name == ".autopilot.json")
    · simp [hh, hg]
    · have hig : e.name ∈ IGNORED_PATHS := by
        simp only [Bool.or_eq_true, beq_iff_eq] at hg
        rcases hg with h1 | h1 <;> rw [h1] <;> decide
      simp [hh, hg, hig]

/-- Any-over-filter fusion for entry predicates. -/
theorem any_filter_fuse (l : List Entry) (p q : Entry → Bool) :
    (l.filter p).any q = l.any (fun a => p a && q a) := by
  induction l with
  | nil => rfl
  | cons a t ih =>
    by_cases hp : p a = true
    · simp [hp, ih]
    · simp [List.filter_cons, hp, ih]

end Detector

/-- Claim C7.  `detect_project_state` classifies every filesystem snapshot
by the first-match decision order of the claim: blueprint and heartbeat and
deploy-guide give COMPLETED; blueprint and heartbeat give ACTIVE; blueprint
without heartbeat gives BLUEPRINT_ONLY; otherwise a non-ignored source-code
file gives HAS_CODE_NO_BLUEPRINT; otherwise zero non-ignored files give
EMPTY; otherwise HAS_CODE_NO_BLUEPRINT. -/
theorem claim_C7 (fs : Detector.ProjectFS) :
    (Detector.detect_project_state fs).state = Detector.spec_classify fs := by
  have hfilter : fs.entries.filter Detector.keptInScan
      = fs.entries.filter (fun e => Detector.spec_non_ignored e && e.isFile) :=
    List.filter_congr (fun e _ => Detector.kept_eq_spec e)
  have hsrc : (fs.entries.filter Detector.keptInScan).any Detector.is_source_file
      = Detector.spec_source_file_exists fs := by
    rw [hfilter, Detector.any_filter_fuse]
    unfold Detector.spec_source_file_exists
    congr 1
    funext e
    cases hf : e.isFile <;> simp [Detector.is_source_file, hf, Bool.and_assoc]
  have hcount : (fs.entries.filter Detector.keptInScan).length
      = Detector.spec_non_ignored_file_count fs := by
    rw [hfilter]; rfl
  unfold Detector.detect_project_state Detector.scan_directory Detector.spec_classify
  dsimp only
  rw [hsrc, hcount]
  generalize fs.entries.any (fun e => e.name == "BLUEPRINT.md") = b1
  generalize (fs.entries.any (fun e => e.name == "HEARTBEAT" && !e.isFile)
    || fs.new_heartbeat_isdir) = b2
  generalize (if fs.new_heartbeat_isdir then fs.new_deploy_guide_exists
    else fs.old_deploy_guide_exists) = b3
  generalize Detector.spec_source_file_exists fs = b4
  generalize Detector.spec_non_ignored_file_count fs = n
  cases b1 <;> cases b2 <;> cases b3 <;> cases b4 <;> simp

namespace RateLimit

/-- Status record (`RateLimitStatus` dataclass in `rate_limit.py`), with the
source's defaults. -/
structure RateLimitStatus where
  opencode_limited : Bool := false
  kilocode_limited : Bool := false
  timestamp : String := ""
deriving DecidableEq, Repr

/-- File names from `rate_limit.py`. -/
def RATE_LIMIT_FILE : String := ".rate_limit_status"

/-- Paused-marker file name from `rate_limit.py`. -/
def PAUSED_FILE : String := "PAUSED_RATE_LIMIT.md"

/-- Filesystem model: an association list from paths (component lists) to
file contents.  A write prepends, a read takes the first match, a removal
filters; directory creation (`mkdir(parents=True, exist_ok=True)`) has no
observable effect in this model. -/
def FS : Type := List (List String × String)

/-- Read a file: first matching entry, if any (`Path.exists` +
`read_text`). -/
def fsRead (fs : FS) (p : List String) : Option String :=
  (List.find? (fun e => e.1 == p) fs).map Prod.snd

/-- Overwrite a file (`write_text`). -/
def fsWrite (fs : FS) (p : List String) (content : String) : FS :=
  (p, content) :: fs

/-- Delete a file (`unlink`, guarded by `exists()` in the source; deleting
an absent path is the identity here, matching that guard). -/
def fsRemove (fs : FS) (p : List String) : FS :=
  List.filter (fun e => !(e.1 == p)) fs

/-- Path of the rate-limit status file:
`project_dir/.opencode-autopilot/HEARTBEAT/.rate_limit_status`. -/
def status_path (project_dir : List String) : List String :=
  project_dir ++ [".opencode-autopilot", "HEARTBEAT", RATE_LIMIT_FILE]

/-- Path of the paused marker:
`project_dir/.opencode-autopilot/HEARTBEAT/PAUSED_RATE_LIMIT.md`. -/
def paused_path (project_dir : List String) : List String :=
  project_dir ++ [".opencode-autopilot", "HEARTBEAT", PAUSED_FILE]

/-- A clock reading, the input `datetime.now()` provides. -/
structure DateTime where
  year : Nat
  month : Nat
  day : Nat
  hour : Nat
  minute : Nat
  second : Nat
deriving DecidableEq, Repr

/-- Decimal digit character of `n % 10`. -/
def digitChar (n : Nat) : Char :=
  (['0', '1', '2', '3', '4', '5', '6', '7', '8', '9'] : List Char).getD (n % 10) '0'

/-- Two-digit zero-padded rendering (`%m`, `%d`, `%H`, `%M`, `%S` on
calendar-range values). -/
def pad2 (n : Nat) : List Char :=
  [digitChar (n / 10), digitChar n]

/-- Four-digit rendering (`%Y` on calendar-range years). -/
def pad4 (n : Nat) : List Char :=
  [digitChar (n / 1000), digitChar (n / 100), digitChar (n / 10), digitChar n]

/-- `datetime.strftime("%Y-%m-%d %H:%M:%S")` for a model clock value. -/
def formatTimestamp (t : DateTime) : String :=
  String.mk (pad4 t.year ++ '-' :: pad2 t.month ++ '-' :: pad2 t.day ++
    ' ' :: pad2 t.hour ++ ':' :: pad2 t.minute ++ ':' :: pad2 t.second)

/-- Python `str(bool)`. -/
def pyBoolStr (b : Bool) : String :=
  if b then "True" else "False"

/-- Embedding of `save_rate_limit_status`: write the three `key=value` lines
to the status file. -/
def save_rate_limit_status (fs : FS) (project_dir : List String)
    (opencode_limited kilocode_limited : Bool) (now : DateTime) : FS :=
  let timestamp := formatTimestamp now
  let content := "opencode=" ++ pyBoolStr opencode_limited ++ "\n" ++
    "kilocode=" ++ pyBoolStr kilocode_limited ++ "\n" ++
    "timestamp=" ++ timestamp ++ "\n"
  fsWrite fs (status_path project_dir) content

/-- Python whitespace as stripped by `str.strip()`. -/
def isPySpace (c : Char) : Bool :=
  c == ' ' || c == '\t' || c == '\n' || c == '\r' || c == '\x0b' || c == '\x0c'

/-- Python `str.strip()` on a character list. -/
def pyStripList (cs : List Char) : List Char :=
  ((cs.dropWhile isPySpace).reverse.dropWhile isPySpace).reverse

/-- Python `str.split(sep)` for a one-character separator. -/
def splitOnChar (sep : Char) : List Char → List (List Char)
  | [] => [[]]
  | c :: cs =>
    if c == sep then [] :: splitOnChar sep cs
    else
      match splitOnChar sep cs with
      | [] => [[c]]
      | h :: t => (c :: h) :: t

/-- The remainder after the first occurrence of `sep`
(`str.split(sep, 1)[1]`). -/
def afterFirst (sep : Char) : List Char → Option (List Char)
  | [] => none
  | c :: cs => if c == sep then some cs else afterFirst sep cs

/-- Python `line.split("=")[1]` (the guard `line.startswith(key)` in the
caller guarantees the index exists; absent index yields `[]` here). -/
def splitIdx1 (sep : Char) (cs : List Char) : List Char :=
  (splitOnChar sep cs).getD 1 []

/-- One iteration of the parsing loop in `load_rate_limit_status`:
`opencode=`/`kilocode=` lines set the flags by case-insensitive comparison
with `"true"`, a `timestamp=` line stores everything after the first `=`. -/
def parse_line (st : RateLimitStatus) (line : List Char) : RateLimitStatus :=
  if List.isPrefixOf "opencode=".data line then
    { st with opencode_limited := ((splitIdx1 '=' line).map Char.toLower == "true".data) }
  else if List.isPrefixOf "kilocode=".data line then
    { st with kilocode_limited := ((splitIdx1 '=' line).map Char.toLower == "true".data) }
  else if List.isPrefixOf "timestamp=".data line then
    { st with timestamp := String.mk ((afterFirst '=' line).getD []) }
  else st

/-- Embedding of `load_rate_limit_status`: default status when the file is
absent, otherwise parse `content.strip().split("\n")` line by line. -/
def load_rate_limit_status (fs : FS) (project_dir : List String) : RateLimitStatus :=
  match fsRead fs (status_path project_dir) with
  | none => {}
  | some content =>
    (splitOnChar '\n' (pyStripList content.data)).foldl parse_line {}

/-- Embedding of `mark_tool_limited`: load, set the tool's flag, save. -/
def mark_tool_limited (fs : FS) (project_dir : List String) (tool_name : String)
    (now : DateTime) : FS :=
  let status := load_rate_limit_status fs project_dir
  let status2 :=
    if tool_name == "opencode" then { status with opencode_limited := true }
    else if tool_name == "kilocode" then { status with kilocode_limited := true }
    else status
  save_rate_limit_status fs project_dir status2.opencode_limited status2.kilocode_limited now

/-- Embedding of `clear_rate_limit_status`: delete the status file, then the
paused marker. -/
def clear_rate_limit_status (fs : FS) (project_dir : List String) : FS :=
  fsRemove (fsRemove fs (status_path project_dir)) (paused_path project_dir)

/-- Embedding of `is_paused`: existence of the paused marker. -/
def is_paused (fs : FS) (project_dir : List String) : Bool :=
  (fsRead fs (paused_path project_dir)).isSome

/-- Embedding of `write_paused_file`: write the marker file. -/
def write_paused_file (fs : FS) (project_dir : List String) (reason : String)
    (now : DateTime) : FS :=
  let content := "# Rate Limit Pause\n\n**Timestamp:** " ++ formatTimestamp now ++
    "\n**Reason:** " ++ reason ++ "\n"
  fsWrite fs (paused_path project_dir) content

end RateLimit

namespace RateLimit

theorem digitChar_cases (n : Nat) :
    digitChar n = '0' ∨ digitChar n = '1' ∨ digitChar n = '2' ∨ digitChar n = '3' ∨
    digitChar n = '4' ∨ digitChar n = '5' ∨ digitChar n = '6' ∨ digitChar n = '7' ∨
    digitChar n = '8' ∨ digitChar n = '9' := by
  have h10 : n % 10 = 0 ∨ n % 10 = 1 ∨ n % 10 = 2 ∨ n % 10 = 3 ∨ n % 10 = 4 ∨
      n % 10 = 5 ∨ n % 10 = 6 ∨ n % 10 = 7 ∨ n % 10 = 8 ∨ n % 10 = 9 := by omega
  unfold digitChar
  rcases h10 with h|h|h|h|h|h|h|h|h|h <;> rw [h] <;> simp

theorem digitChar_ne_newline (n : Nat) : digitChar n ≠ '\n' := by
  rcases digitChar_cases n with h|h|h|h|h|h|h|h|h|h <;> rw [h] <;> decide

theorem isPySpace_digitChar (n : Nat) : isPySpace (digitChar n) = false := by
  rcases digitChar_cases n with h|h|h|h|h|h|h|h|h|h <;> rw [h] <;> rfl

theorem pad2_ne_newline (n : Nat) : ∀ c ∈ pad2 n, c ≠ '\n' := by
  intro c hc
  rcases (by simpa [pad2] using hc : c = digitChar (n / 10) ∨ c = digitChar n) with h | h <;>
    (subst h; exact digitChar_ne_newline _)

theorem pad4_ne_newline (n : Nat) : ∀ c ∈ pad4 n, c ≠ '\n' := by
  intro c hc
  rcases (by simpa [pad4] using hc :
      c = digitChar (n / 1000) ∨ c = digitChar (n / 100) ∨ c = digitChar (n / 10) ∨
        c = digitChar n) with h | h | h | h <;>
    (subst h; exact digitChar_ne_newline _)

theorem ts_no_newline (t : DateTime) : '\n' ∉ (formatTimestamp t).data := by
  intro hc
  simp only [formatTimestamp, List.mem_append, List.mem_cons] at hc
  casesm* _ ∨ _
  all_goals first
    | exact pad4_ne_newline _ _ (by assumption) rfl
    | exact pad2_ne_newline _ _ (by assumption) rfl
    | exact absurd (by assumption) (by decide)

theorem ts_decomp (t : DateTime) :
    (formatTimestamp t).data =
      (pad4 t.year ++ '-' :: pad2 t.month ++ '-' :: pad2 t.day ++ ' ' :: pad2 t.hour ++
        ':' :: pad2 t.minute ++ [':', digitChar (t.second / 10)]) ++ [digitChar t.second] := by
  simp [formatTimestamp, pad2, List.append_assoc]

end RateLimit

namespace RateLimit

theorem pyStrip_shape (B : List Char) (c0 c : Char) (h0 : isPySpace c0 = false)
    (hc : isPySpace c = false) :
    pyStripList ((c0 :: (B ++ [c])) ++ ['\n']) = c0 :: (B ++ [c]) := by
  unfold pyStripList
  rw [List.cons_append, List.dropWhile_cons]
  simp only [h0, if_false, Bool.false_eq_true]
  rw [show (c0 :: (B ++ [c] ++ ['\n'])).reverse = '\n' :: (c :: (B.reverse ++ [c0])) by simp]
  rw [List.dropWhile_cons]
  simp only [show isPySpace '\n' = true from rfl, if_true]
  rw [List.dropWhile_cons]
  simp only [hc, if_false, Bool.false_eq_true]
  simp

theorem splitOnChar_not_mem (sep : Char) (a : List Char) (h : sep ∉ a) :
    splitOnChar sep a = [a] := by
  induction a with
  | nil => rfl
  | cons c cs ih =>
    simp only [List.mem_cons, not_or] at h
    have hc : (c == sep) = false := by
      simp only [beq_eq_false_iff_ne, ne_eq]
      exact fun e => h.1 e.symm
    unfold splitOnChar
    rw [hc]
    simp only [Bool.false_eq_true, if_false]
    rw [ih h.2]

theorem splitOnChar_append (sep : Char) (a b : List Char) (h : sep ∉ a) :
    splitOnChar sep (a ++ sep :: b) = a :: splitOnChar sep b := by
  induction a with
  | nil =>
    simp only [List.nil_append]
    conv_lhs => rw [splitOnChar]
    simp
  | cons c cs ih =>
    simp only [List.mem_cons, not_or] at h
    have hc : (c == sep) = false := by
      simp only [beq_eq_false_iff_ne, ne_eq]
      exact fun e => h.1 e.symm
    simp only [List.cons_append]
    conv_lhs => rw [splitOnChar]
    simp only [hc, Bool.false_eq_true, if_false]
    rw [ih h.2]

theorem afterFirst_append (sep : Char) (a b : List Char) (h : sep ∉ a) :
    afterFirst sep (a ++ sep :: b) = some b := by
  induction a with
  | nil =>
    simp [afterFirst]
  | cons c cs ih =>
    simp only [List.mem_cons, not_or] at h
    have hc : (c == sep) = false := by
      simp only [beq_eq_false_iff_ne, ne_eq]
      exact fun e => h.1 e.symm
    simp only [List.cons_append]
    unfold afterFirst
    rw [hc]
    simp only [Bool.false_eq_true, if_false]
    exact ih h.2

theorem isPrefixOf_cons_false (a b : Char) (as bs : List Char) (h : (a == b) = false) :
    List.isPrefixOf (a :: as) (b :: bs) = false := by
  simp [List.isPrefixOf, h]

theorem isPrefixOf_append_self (l t : List Char) : List.isPrefixOf l (l ++ t) = true := by
  induction l with
  | nil => simp [List.isPrefixOf]
  | cons a as ih => simp [List.isPrefixOf, ih]

theorem fsRead_fsRemove_self (fs : FS) (p : List String) :
    fsRead (fsRemove fs p) p = none := by
  induction fs with
  | nil => rfl
  | cons e t ih =>
    by_cases h : (e.1 == p) = true
    · simpa [fsRemove, List.filter_cons, h] using ih
    · simp [fsRemove, List.filter_cons, h, fsRead, List.find?]

theorem fsRead_fsRemove_ne (fs : FS) (p q : List String) (h : p ≠ q) :
    fsRead (fsRemove fs q) p = fsRead fs p := by
  induction fs with
  | nil => rfl
  | cons e t ih =>
    by_cases he : (e.1 == q) = true
    · have hep : (e.1 == p) = false := by
        simp only [beq_iff_eq] at he
        simp only [beq_eq_false_iff_ne, ne_eq, he]
        exact fun hh => h hh.symm
      simpa [fsRemove, List.filter_cons, he, fsRead, List.find?, hep] using ih
    · by_cases hp : (e.1 == p) = true
      · simp [fsRemove, List.filter_cons, he, fsRead, List.find?, hp]
      · simpa [fsRemove, List.filter_cons, he, fsRead, List.find?, hp] using ih

theorem status_ne_paused (dir : List String) : status_path dir ≠ paused_path dir := by
  intro h
  unfold status_path paused_path at h
  have h2 := List.append_cancel_left h
  exact absurd h2 (by decide)

theorem load_save_generic (t : DateTime) (S1 S2 : String) (b1 b2 : Bool)
    (hn1 : ('\n' : Char) ∉ S1.data) (hn2 : ('\n' : Char) ∉ S2.data)
    (hp1 : parse_line {} ("opencode=".data ++ S1.data) =
      { opencode_limited := b1 })
    (hp2 : parse_line { opencode_limited := b1 } ("kilocode=".data ++ S2.data) =
      { opencode_limited := b1, kilocode_limited := b2 }) :
    (splitOnChar '\n' (pyStripList
        (("opencode=" ++ S1 ++ "\n" ++ "kilocode=" ++ S2 ++ "\n" ++ "timestamp=" ++
          formatTimestamp t ++ "\n").data))).foldl parse_line {}
      = { opencode_limited := b1, kilocode_limited := b2, timestamp := formatTimestamp t } := by
  have hshape : ("opencode=" ++ S1 ++ "\n" ++ "kilocode=" ++ S2 ++ "\n" ++ "timestamp=" ++
      formatTimestamp t ++ "\n").data
      = ('o' :: (("pencode=".data ++ S1.data ++ '\n' :: "kilocode=".data ++ S2.data ++
          '\n' :: "timestamp=".data ++
          (pad4 t.year ++ '-' :: pad2 t.month ++ '-' :: pad2 t.day ++ ' ' :: pad2 t.hour ++
            ':' :: pad2 t.minute ++ [':', digitChar (t.second / 10)])) ++
          [digitChar t.second])) ++ ['\n'] := by
    simp only [String.data_append, ts_decomp]
    simp [List.append_assoc, List.cons_append]
  rw [hshape, pyStrip_shape _ _ _ (by decide) (isPySpace_digitChar _)]
  have hsplit : ('o' :: (("pencode=".data ++ S1.data ++ '\n' :: "kilocode=".data ++ S2.data ++
      '\n' :: "timestamp=".data ++
      (pad4 t.year ++ '-' :: pad2 t.month ++ '-' :: pad2 t.day ++ ' ' :: pad2 t.hour ++
        ':' :: pad2 t.minute ++ [':', digitChar (t.second / 10)])) ++
      [digitChar t.second]))
      = ("opencode=".data ++ S1.data) ++ '\n' :: (("kilocode=".data ++ S2.data) ++
          '\n' :: ("timestamp=".data ++ (formatTimestamp t).data)) := by
    rw [ts_decomp]
    simp [List.append_assoc, List.cons_append]
  rw [hsplit]
  rw [splitOnChar_append _ _ _ (by
    simp only [List.mem_append, not_or]
    exact ⟨by decide, hn1⟩)]
  rw [splitOnChar_append _ _ _ (by
    simp only [List.mem_append, not_or]
    exact ⟨by decide, hn2⟩)]
  rw [splitOnChar_not_mem _ _ (by
    simp only [List.mem_append, not_or]
    exact ⟨by decide, ts_no_newline t⟩)]
  simp only [List.foldl, hp1, hp2]
  have c1 : List.isPrefixOf "opencode=".data
      ("timestamp=".data ++ (formatTimestamp t).data) = false :=
    isPrefixOf_cons_false 'o' 't' "pencode=".data ("imestamp=".data ++ (formatTimestamp t).data)
      (by decide)
  have c2 : List.isPrefixOf "kilocode=".data
      ("timestamp=".data ++ (formatTimestamp t).data) = false :=
    isPrefixOf_cons_false 'k' 't' "ilocode=".data ("imestamp=".data ++ (formatTimestamp t).data)
      (by decide)
  have c3 : List.isPrefixOf "timestamp=".data
      ("timestamp=".data ++ (formatTimestamp t).data) = true :=
    isPrefixOf_append_self _ _
  have c4 : afterFirst '=' ("timestamp=".data ++ (formatTimestamp t).data)
      = some (formatTimestamp t).data :=
    afterFirst_append '=' "timestamp".data (formatTimestamp t).data (by decide)
  unfold parse_line
  rw [c1]
  simp only [Bool.false_eq_true, if_false]
  rw [c2]
  simp only [Bool.false_eq_true, if_false]
  rw [c3]
  simp only [if_true]
  rw [c4]
  rfl

theorem ts_ne_empty (t : DateTime) : formatTimestamp t ≠ "" := by
  intro h
  have hlen := congrArg (fun s => s.data.length) h
  simp [formatTimestamp, pad4, pad2] at hlen

end RateLimit

/-- Claim C8.  A `save_rate_limit_status` followed by
`load_rate_limit_status` on the same directory reproduces exactly the saved
`opencode`/`kilocode` flags together with the formatted timestamp, which is a
non-empty string; `clear_rate_limit_status` removes both the status file and
the paused marker, after which `is_paused` is false. -/
theorem claim_C8 (fs : RateLimit.FS) (project_dir : List String) (o k : Bool)
    (now : RateLimit.DateTime) :
    RateLimit.load_rate_limit_status
        (RateLimit.save_rate_limit_status fs project_dir o k now) project_dir
      = { opencode_limited := o, kilocode_limited := k,
          timestamp := RateLimit.formatTimestamp now } ∧
    RateLimit.formatTimestamp now ≠ "" ∧
    RateLimit.fsRead (RateLimit.clear_rate_limit_status fs project_dir)
        (RateLimit.status_path project_dir) = none ∧
    RateLimit.fsRead (RateLimit.clear_rate_limit_status fs project_dir)
        (RateLimit.paused_path project_dir) = none ∧
    RateLimit.is_paused (RateLimit.clear_rate_limit_status fs project_dir) project_dir
      = false := by
  refine ⟨?_, RateLimit.ts_ne_empty now, ?_, ?_, ?_⟩
  · unfold RateLimit.load_rate_limit_status RateLimit.save_rate_limit_status
      RateLimit.fsWrite RateLimit.fsRead
    dsimp only
    rw [List.find?_cons_of_pos _ (by simp)]
    dsimp only [Option.map]
    cases o <;> cases k <;>
      exact RateLimit.load_save_generic now _ _ _ _ (by decide) (by decide) (by decide) (by decide)
  · unfold RateLimit.clear_rate_limit_status
    rw [RateLimit.fsRead_fsRemove_ne _ _ _ (RateLimit.status_ne_paused project_dir)]
    exact RateLimit.fsRead_fsRemove_self fs (RateLimit.status_path project_dir)
  · unfold RateLimit.clear_rate_limit_status
    exact RateLimit.fsRead_fsRemove_self _ (RateLimit.paused_path project_dir)
  · unfold RateLimit.is_paused RateLimit.clear_rate_limit_status
    rw [RateLimit.fsRead_fsRemove_self]
    rfl
